import Mathlib

/-!
Verification of the iot888-server decision loop.

The definitions below are a shallow embedding of `src/combined_server.py`
(the WebSocket inference handler `inference_socket`, the manual-override
endpoint `publish_traffic`, and the telemetry write
`store_message_to_firestore`), together with definitions modelled from the
specification for the components the provided sources do not contain
(the Zone Aggregator and the Decision Scheduler's publish gate, and the
second telemetry sink).  Times are rationals (Python floats used only for
second-granularity arithmetic on small values); external effects
(base64 decoding, image decoding, the YOLO model, MQTT, Firestore) are
oracles or outcome parameters, and each handler step returns the full
observable effect of one loop iteration.
-/

namespace IotServer

/-- An opaque decoded frame (the handler never inspects pixel data). -/
abbrev Frame := Nat

/-- A detection as built by the handler loop (combined_server.py lines
236-240): `[x1, y1, x2, y2, model.names[cls], conf]`. -/
structure Detection where
  x1 : Int
  y1 : Int
  x2 : Int
  y2 : Int
  label : String
  conf : ℚ
deriving DecidableEq

/-- combined_server.py line 32: `TARGET_FPS = 2`. -/
def TARGET_FPS : ℚ := 2

/-- combined_server.py line 33: `MIN_INTERVAL = 1.0 / TARGET_FPS`. -/
def MIN_INTERVAL : ℚ := 1 / TARGET_FPS

/-- combined_server.py line 24: `TOPIC_TRAFFIC_OUT = "iot/backend/traffic"`. -/
def TOPIC_TRAFFIC_OUT : String := "iot/backend/traffic"

/-- The ambient clocks.  `wall` is what Python's `time.time()` returns
(wall-clock seconds, subject to system clock adjustment); `mono` is the
monotonic reading of the same instant (what `time.monotonic()` would
return).  The source only ever reads `wall`. -/
structure Clock where
  wall : ℚ
  mono : ℚ
deriving DecidableEq

/-- combined_server.py line 220: `current_time = time.time()` — the handler
reads the wall clock. -/
def readTime (c : Clock) : ℚ := c.wall

/-- Per-connection handler state: `last_time`, a local variable of
`inference_socket` (line 200), so each accepted connection has its own. -/
structure ConnState where
  lastTime : ℚ
deriving DecidableEq

/-- combined_server.py line 200: `last_time = 0.0` at connection accept. -/
def initConnState : ConnState := { lastTime := 0 }

/-- Module-global state shared by all connections: `last_frame`
(line 49, updated under `last_frame_lock` at lines 217-218). -/
structure GlobalState where
  lastFrame : Option Frame
deriving DecidableEq

/-- One inbound WebSocket text message, abstracted by the outcomes of the
two decoding stages the handler applies to it: `b64ok` is whether
`base64.b64decode(data)` succeeds (it raises `binascii.Error` on invalid
padding), `imgok` whether `cv2.imdecode` then yields a frame rather than
`None`, and `frame` the decoded frame when both succeed. -/
structure InMsg where
  b64ok : Bool
  imgok : Bool
  frame : Frame
deriving DecidableEq

/-- A JSON object passed to `ws.send_json` by the handler.  The handler
sends exactly two shapes: `{"error": "invalid_image"}` (line 213) and
`{"detections": ..., "skipped": ...}` (lines 223 and 242). -/
inductive Response where
  | errorInvalidImage
  | ack (detections : List Detection) (skipped : Bool)
deriving DecidableEq

/-- The JSON field names of an outbound message, in construction order. -/
def respFields : Response → List String
  | .errorInvalidImage => ["error"]
  | .ack _ _ => ["detections", "skipped"]

/-- The observable outcome of one iteration of the handler's `while True`
loop: the message sent (if any), whether the YOLO model was invoked,
whether the loop continues (`continue`/fall-through) or breaks, and the
post-iteration connection-local and global state. -/
structure StepOut where
  sent : Option Response
  modelInvoked : Bool
  continues : Bool
  conn : ConnState
  globalSt : GlobalState
deriving DecidableEq

/-- One iteration of `inference_socket`'s loop (combined_server.py lines
202-246).  `oracle` stands for the YOLO invocation at line 233 plus the
box extraction at lines 236-240; `.error ()` means that call raised.
Control flow, faithfully:
* `b64ok = false`: `base64.b64decode` raises, the exception reaches the
  `except` at line 244, which prints and `break`s — nothing sent, state
  untouched, loop over;
* `imgok = false`: `frame is None` (line 212) — send
  `{"error": "invalid_image"}`, `continue` with state untouched;
* otherwise `last_frame` is updated (lines 217-218), the wall clock is
  read (line 220) and compared with `last_time` (line 221): below
  `MIN_INTERVAL` the skip acknowledgment is sent (line 223) and the loop
  continues with `last_time` unchanged; at or above, `last_time` is set
  to the current reading (line 226) *before* the model runs (line 233):
  on success the detections are sent with `skipped: false` (line 242),
  on a raise the `except` at line 244 prints and `break`s. -/
def wsStep (oracle : Frame → Except Unit (List Detection)) (c : Clock)
    (s : ConnState) (g : GlobalState) (m : InMsg) : StepOut :=
  if m.b64ok = false then
    { sent := none, modelInvoked := false, continues := false,
      conn := s, globalSt := g }
  else if m.imgok = false then
    { sent := some .errorInvalidImage, modelInvoked := false,
      continues := true, conn := s, globalSt := g }
  else
    let g1 : GlobalState := { lastFrame := some m.frame }
    if readTime c - s.lastTime < MIN_INTERVAL then
      { sent := some (.ack [] true), modelInvoked := false,
        continues := true, conn := s, globalSt := g1 }
    else
      let s1 : ConnState := { lastTime := readTime c }
      match oracle m.frame with
      | .ok dets =>
          { sent := some (.ack dets false), modelInvoked := true,
            continues := true, conn := s1, globalSt := g1 }
      | .error _ =>
          { sent := none, modelInvoked := true, continues := false,
            conn := s1, globalSt := g1 }

/-- combined_server.py line 183: the accepted command strings. -/
def validCmds : List String := ["1", "2", "3"]

/-- The result of the `POST /traffic/{cmd}` handler: an `HTTPException`
with its status code and detail, or the success payload
`{"status": ..., "topic": ..., "cmd": ...}` (line 192). -/
inductive PTResult where
  | httpError (status : Nat) (detail : String)
  | okPayload (status topic cmd : String)
deriving DecidableEq

/-- The external effects performed by one `publish_traffic` call:
`(topic, payload)` pairs given to `mqtt_client.publish` (line 190) and to
`store_message_to_firestore` (line 191), in order. -/
structure PTEffects where
  published : List (String × String)
  telemetry : List (String × String)
deriving DecidableEq

/-- `publish_traffic` (combined_server.py lines 180-192).  Raising an
`HTTPException` aborts the handler before any effect, so both error
branches carry empty effect lists.  `mqttConnected` is the state of the
`mqtt_connected` event read at line 187. -/
def publish_traffic (cmd : String) (mqttConnected : Bool) :
    PTResult × PTEffects :=
  if validCmds.contains cmd = false then
    (.httpError 400 "cmd must be 1, 2, or 3", ⟨[], []⟩)
  else if mqttConnected = false then
    (.httpError 503 "MQTT not connected yet", ⟨[], []⟩)
  else
    (.okPayload "published" TOPIC_TRAFFIC_OUT cmd,
      ⟨[(TOPIC_TRAFFIC_OUT, cmd)], [(TOPIC_TRAFFIC_OUT, cmd)]⟩)

/-- The outcome of one attempted append to a durable store: the
`db.collection("telemetry").add(doc)` call either succeeds or raises with
a message. -/
inductive SinkOutcome where
  | ok
  | err (msg : String)
deriving DecidableEq

/-- What one guarded store write leaves behind: whether the document was
written, and the log lines printed. -/
structure SinkTrace where
  wrote : Bool
  logged : List String
deriving DecidableEq

/-- `store_message_to_firestore` (combined_server.py lines 87-98): the
whole body sits in `try: ... except Exception as e: print(...)`, so a
store failure is caught, turned into a log line, and never re-raised —
the function is total, whatever the store does. -/
def store_message_to_firestore (o : SinkOutcome) : SinkTrace :=
  match o with
  | .ok => { wrote := true, logged := [] }
  | .err m => { wrote := false, logged := [m] }

/-- The observable trace of one two-sink telemetry `record` call. -/
structure RecordTrace where
  docStore : SinkTrace
  tsStore : SinkTrace
deriving DecidableEq

/-- Modelled from the spec: the Telemetry Sink Adapter's
`record(topic, payload)` — "fire-and-forget append to two independent
durable stores", each store's failure "caught and logged locally", not
blocking the other store and never propagating to the caller.  The
sources under src/ contain only the single-sink Firestore path
(`store_message_to_firestore`); the second (time-series) sink is missing
from them, so each sink here is guarded exactly the way the single source
sink is.  Totality of this function (its codomain carries no exception)
is the non-propagation guarantee. -/
def record (docOutcome tsOutcome : SinkOutcome) : RecordTrace :=
  { docStore := store_message_to_firestore docOutcome
    tsStore := store_message_to_firestore tsOutcome }

/-- Modelled from the spec: the Zone Aggregator's detection record —
"boundingBox: (x1,y1,x2,y2) pixel ints, label: string, confidence:
float ∈ [0,1]" (pixel coordinates, hence naturals).  The aggregator
itself is code of this repository missing from src/. -/
structure SpecDetection where
  x1 : Nat
  y1 : Nat
  x2 : Nat
  y2 : Nat
  label : String
  conf : ℚ
deriving DecidableEq

/-- Modelled from the spec: the common width of the first `N - 1` zones
when `frameWidth` is divided into `N` contiguous equal-width integer
intervals. -/
def zoneWidth (frameWidth zoneCount : Nat) : Nat := frameWidth / zoneCount

/-- Modelled from the spec: membership of a horizontal midpoint `m` in
zone index `i` (0-based): the half-open interval
`[i * zoneWidth, (i + 1) * zoneWidth)`, except that "the last interval
absorbs any remainder up to frameWidth", i.e. ends at `frameWidth`. -/
def inZone (frameWidth zoneCount i m : Nat) : Bool :=
  decide (zoneWidth frameWidth zoneCount * i ≤ m) &&
    (if i = zoneCount - 1 then decide (m < frameWidth)
     else decide (m < zoneWidth frameWidth zoneCount * (i + 1)))

/-- Modelled from the spec: "assign it to the first zone interval whose
half-open range contains that midpoint"; `none` when no zone matches
(midpoint ≥ frameWidth, dropped silently). -/
def zoneIdxOf (frameWidth zoneCount m : Nat) : Option Nat :=
  (List.range zoneCount).find? (fun i => inZone frameWidth zoneCount i m)

/-- Modelled from the spec: a detection counts only when its label is in
the configured vehicle label set. -/
def isVehicle (vehicleLabels : List String) (d : SpecDetection) : Bool :=
  vehicleLabels.contains d.label

/-- Modelled from the spec: a detection's horizontal midpoint
`(x1 + x2) / 2`. -/
def midpt (d : SpecDetection) : Nat := (d.x1 + d.x2) / 2

/-- Modelled from the spec: `aggregate(frameWidth, frameHeight,
detections, zoneCount) -> ZoneCounts`, the count list indexed by 0-based
zone (ZoneId = index + 1).  Only vehicle-labeled detections count, by
midpoint, in the unique zone containing it. -/
def aggregate (vehicleLabels : List String) (frameWidth frameHeight : Nat)
    (dets : List SpecDetection) (zoneCount : Nat) : List Nat :=
  (List.range zoneCount).map (fun i =>
    dets.countP (fun d =>
      isVehicle vehicleLabels d &&
        decide (zoneIdxOf frameWidth zoneCount (midpt d) = some i)))

/-- Modelled from the spec: "select argmax over ZoneCounts (ties broken
by lowest ZoneId, since selection uses first-seen maximum in ascending
zone order)", returned as a 1-based ZoneId. -/
def busiestZone (counts : List Nat) : Nat :=
  counts.findIdx (fun c => c == counts.foldr max 0) + 1

/-- Modelled from the spec: a decided command,
`{ zoneId: ZoneId, issuedAt: timestamp }`. -/
structure Command where
  zoneId : Nat
  issuedAt : ℚ
deriving DecidableEq

/-- Modelled from the spec: the Decision Scheduler's per-channel publish
state, the time the last command was emitted. -/
structure SchedState where
  lastPublish : ℚ
deriving DecidableEq

/-- The outcome of one publish-gate evaluation: the command emitted (or
`none`), the zone counts reported to the device/UI either way, and the
post-cycle scheduler state. -/
structure GateOut where
  cmd : Option Command
  counts : List Nat
  state : SchedState
deriving DecidableEq

/-- Modelled from the spec: the Decision Scheduler's publish gate — "once
inference has run and zone counts are available, compare elapsed time
since the last emitted command against minPublishDelay.  If below
threshold, return zone counts with no command ...  If at or above
threshold: select argmax over ZoneCounts ...; construct a Command for
that zone; reset the publish timer to now".  This component is code of
this repository missing from src/. -/
def publishGate (minPublishDelay now : ℚ) (counts : List Nat)
    (s : SchedState) : GateOut :=
  if now - s.lastPublish < minPublishDelay then
    { cmd := none, counts := counts, state := s }
  else
    { cmd := some { zoneId := busiestZone counts, issuedAt := now },
      counts := counts, state := { lastPublish := now } }

/-- The worked example's detections: midpoints 50 (car), 620 (bus),
640 (car), 10 (person). -/
def exampleDets : List SpecDetection :=
  [ { x1 := 0, y1 := 0, x2 := 100, y2 := 10, label := "car", conf := 9/10 }
  , { x1 := 600, y1 := 0, x2 := 640, y2 := 10, label := "bus", conf := 9/10 }
  , { x1 := 630, y1 := 0, x2 := 650, y2 := 10, label := "car", conf := 9/10 }
  , { x1 := 0, y1 := 0, x2 := 20, y2 := 10, label := "person", conf := 9/10 } ]

/-- The zone partition never extends past the frame: `N` zones of width
`W / N` end at `(W / N) * N ≤ W`. -/
theorem zoneWidth_mul_le (W N : Nat) : zoneWidth W N * N ≤ W := by
  simpa [zoneWidth, Nat.mul_comm] using Nat.div_mul_le_self W N

/-- A midpoint lying in any zone of the partition of `[0, W)` is below
`W`. -/
theorem lt_of_inZone {W N i m : Nat} (hi : i < N)
    (h : inZone W N i m = true) : m < W := by
  unfold inZone at h
  by_cases hlast : i = N - 1
  · rw [if_pos hlast] at h
    simp only [Bool.and_eq_true, decide_eq_true_eq] at h
    exact h.2
  · rw [if_neg hlast] at h
    simp only [Bool.and_eq_true, decide_eq_true_eq] at h
    have h1 : zoneWidth W N * (i + 1) ≤ zoneWidth W N * N :=
      Nat.mul_le_mul_left _ (by omega)
    exact lt_of_lt_of_le h.2 (le_trans h1 (zoneWidth_mul_le W N))

/-- Every midpoint below the frame width lands in some zone (when there
is at least one zone): the partition covers `[0, W)`. -/
theorem zoneIdxOf_isSome {W N m : Nat} (hN : 1 ≤ N) (hm : m < W) :
    (zoneIdxOf W N m).isSome := by
  rw [zoneIdxOf, List.find?_isSome]
  by_cases hw : zoneWidth W N = 0
  · exact ⟨N - 1, List.mem_range.mpr (by omega), by simp [inZone, hw, hm]⟩
  · have hw' : 0 < zoneWidth W N := Nat.pos_of_ne_zero hw
    by_cases hc : m / zoneWidth W N ≤ N - 1
    · refine ⟨m / zoneWidth W N, List.mem_range.mpr (by omega), ?_⟩
      by_cases hj : m / zoneWidth W N = N - 1
      · have hle : zoneWidth W N * (m / zoneWidth W N) ≤ m :=
          Nat.mul_div_le m (zoneWidth W N)
        rw [hj] at hle
        simp [inZone, hj, hm, hle]
      · have hle : zoneWidth W N * (m / zoneWidth W N) ≤ m :=
          Nat.mul_div_le m (zoneWidth W N)
        have hmod : m % zoneWidth W N < zoneWidth W N := Nat.mod_lt m hw'
        have hdm : zoneWidth W N * (m / zoneWidth W N) + m % zoneWidth W N
            = m := Nat.div_add_mod m (zoneWidth W N)
        have hub : m < zoneWidth W N * (m / zoneWidth W N + 1) := by
          calc m = zoneWidth W N * (m / zoneWidth W N) + m % zoneWidth W N :=
                hdm.symm
            _ < zoneWidth W N * (m / zoneWidth W N) + zoneWidth W N := by
                omega
            _ = zoneWidth W N * (m / zoneWidth W N + 1) := by ring
        simp [inZone, hj, hle, hub]
    · refine ⟨N - 1, List.mem_range.mpr (by omega), ?_⟩
      have hdiv : N - 1 ≤ m / zoneWidth W N := by omega
      have hle : (N - 1) * zoneWidth W N ≤ m :=
        (Nat.le_div_iff_mul_le hw').mp hdiv
      have hle' : zoneWidth W N * (N - 1) ≤ m := by
        rw [Nat.mul_comm]
        exact hle
      simp [inZone, hm, hle']

/-- Sums of pointwise sums of `Nat`-valued maps split. -/
theorem sum_map_add_nat {α : Type} (l : List α) (f g : α → Nat) :
    (l.map (fun x => f x + g x)).sum = (l.map f).sum + (l.map g).sum := by
  induction l with
  | nil => simp
  | cons a t ih => simp [ih]; omega

/-- Summing the indicator of `j` over `range N` yields `1` exactly when
`j < N`. -/
theorem sum_map_ite_eq (N j : Nat) :
    ((List.range N).map (fun i => if j = i then (1 : Nat) else 0)).sum
      = if j < N then 1 else 0 := by
  induction N with
  | zero => simp
  | succ n ih =>
    rw [List.range_succ, List.map_append, List.sum_append]
    simp only [ih, List.map_cons, List.map_nil, List.sum_cons,
      List.sum_nil]
    split_ifs <;> omega

/-- A single detection contributes to exactly one zone bucket, and does
so exactly when it is vehicle-labeled with midpoint inside the frame. -/
theorem indicator_sum (veh : List String) (W N : Nat) (hN : 1 ≤ N)
    (d : SpecDetection) :
    ((List.range N).map (fun i =>
        if (isVehicle veh d &&
            decide (zoneIdxOf W N (midpt d) = some i)) = true
        then (1 : Nat) else 0)).sum
      = if (isVehicle veh d && decide (midpt d < W)) = true
        then (1 : Nat) else 0 := by
  cases hv : isVehicle veh d with
  | false => simp [hv]
  | true =>
    cases hz : zoneIdxOf W N (midpt d) with
    | some j =>
      have hz' : (List.range N).find? (fun i => inZone W N i (midpt d))
          = some j := hz
      have hj : j < N := List.mem_range.mp (List.mem_of_find?_eq_some hz')
      have hin : inZone W N j (midpt d) = true := by
        have hfs := List.find?_some hz'
        simpa using hfs
      have hmW : midpt d < W := lt_of_inZone hj hin
      simp only [hv, hz, Bool.true_and, Option.some.injEq, hmW,
        decide_eq_true_eq, decide_True, if_pos trivial]
      rw [sum_map_ite_eq]
      simp [hj]
    | none =>
      have hmW : ¬ midpt d < W := by
        intro h
        have hs := zoneIdxOf_isSome hN h
        rw [hz] at hs
        simp at hs
      simp [hv, hz, hmW]

/-- The aggregate's per-zone counts sum to the number of vehicle-labeled
detections whose midpoint lies inside the frame. -/
theorem aggregate_sum_eq (veh : List String) (W H N : Nat) (hN : 1 ≤ N)
    (dets : List SpecDetection) :
    (aggregate veh W H dets N).sum
      = dets.countP (fun d => isVehicle veh d && decide (midpt d < W)) := by
  induction dets with
  | nil => simp [aggregate]
  | cons d t ih =>
    simp only [aggregate, List.countP_cons] at *
    rw [show ((List.range N).map fun i =>
          t.countP (fun d => isVehicle veh d &&
            decide (zoneIdxOf W N (midpt d) = some i)) +
            if (isVehicle veh d &&
              decide (zoneIdxOf W N (midpt d) = some i)) = true
            then 1 else 0)
        = ((List.range N).map fun i =>
            (fun i => t.countP (fun d => isVehicle veh d &&
              decide (zoneIdxOf W N (midpt d) = some i))) i +
            (fun i => if (isVehicle veh d &&
              decide (zoneIdxOf W N (midpt d) = some i)) = true
              then 1 else 0) i) from rfl]
    rw [sum_map_add_nat, ih, indicator_sum veh W N hN d]

/-- A fully processed cycle: both decodes succeed, the gate is open, and
the model call returns detections.  Shared shape lemma for the handler
theorems. -/
theorem wsStep_processed (oracle : Frame → Except Unit (List Detection))
    (c : Clock) (s : ConnState) (g : GlobalState) (m : InMsg)
    (dets : List Detection) (h1 : m.b64ok = true) (h2 : m.imgok = true)
    (hgate : ¬ readTime c - s.lastTime < MIN_INTERVAL)
    (hok : oracle m.frame = .ok dets) :
    wsStep oracle c s g m
      = { sent := some (.ack dets false), modelInvoked := true,
          continues := true, conn := { lastTime := readTime c },
          globalSt := { lastFrame := some m.frame } } := by
  simp [wsStep, h1, h2, hgate, hok]

/-- C1: Inference gate — two decodable inference requests on the same
channel, the first fully processed at wall time `c1`, the second arriving
at `c2` less than `MIN_INTERVAL` later, make the handler answer the
second with `{"detections": [], "skipped": true}`, leave the YOLO model
uninvoked, and leave the gate timer (`last_time`, the only decision state
the handler owns — it keeps no zone counts or command state) exactly as
the first request left it. -/
theorem c1_inference_gate_skips
    (oracle : Frame → Except Unit (List Detection)) (c1 c2 : Clock)
    (s : ConnState) (g : GlobalState) (m1 m2 : InMsg)
    (dets : List Detection)
    (h1 : m1.b64ok = true) (h2 : m1.imgok = true)
    (hgate1 : ¬ readTime c1 - s.lastTime < MIN_INTERVAL)
    (hok : oracle m1.frame = .ok dets)
    (h3 : m2.b64ok = true) (h4 : m2.imgok = true)
    (hsep : readTime c2 - readTime c1 < MIN_INTERVAL) :
    (wsStep oracle c2 (wsStep oracle c1 s g m1).conn
        (wsStep oracle c1 s g m1).globalSt m2).sent
        = some (Response.ack [] true)
    ∧ (wsStep oracle c2 (wsStep oracle c1 s g m1).conn
        (wsStep oracle c1 s g m1).globalSt m2).modelInvoked = false
    ∧ (wsStep oracle c2 (wsStep oracle c1 s g m1).conn
        (wsStep oracle c1 s g m1).globalSt m2).conn
        = (wsStep oracle c1 s g m1).conn := by
  rw [wsStep_processed oracle c1 s g m1 dets h1 h2 hgate1 hok]
  simp [wsStep, h3, h4, hsep]

/-- C1 witness: at wall times 1000 and 1000.4 (separation 0.4 < 0.5), the
second request is skipped, uninvoked and timer-preserving. -/
theorem c1_inference_gate_skips_witness :
    (wsStep (fun _ => Except.ok ([] : List Detection)) ⟨5002/5, 6⟩
        (wsStep (fun _ => Except.ok ([] : List Detection)) ⟨1000, 5⟩
          initConnState ⟨none⟩ ⟨true, true, 0⟩).conn
        (wsStep (fun _ => Except.ok ([] : List Detection)) ⟨1000, 5⟩
          initConnState ⟨none⟩ ⟨true, true, 0⟩).globalSt
        ⟨true, true, 1⟩).sent
        = some (Response.ack [] true)
    ∧ (wsStep (fun _ => Except.ok ([] : List Detection)) ⟨5002/5, 6⟩
        (wsStep (fun _ => Except.ok ([] : List Detection)) ⟨1000, 5⟩
          initConnState ⟨none⟩ ⟨true, true, 0⟩).conn
        (wsStep (fun _ => Except.ok ([] : List Detection)) ⟨1000, 5⟩
          initConnState ⟨none⟩ ⟨true, true, 0⟩).globalSt
        ⟨true, true, 1⟩).modelInvoked = false
    ∧ (wsStep (fun _ => Except.ok ([] : List Detection)) ⟨5002/5, 6⟩
        (wsStep (fun _ => Except.ok ([] : List Detection)) ⟨1000, 5⟩
          initConnState ⟨none⟩ ⟨true, true, 0⟩).conn
        (wsStep (fun _ => Except.ok ([] : List Detection)) ⟨1000, 5⟩
          initConnState ⟨none⟩ ⟨true, true, 0⟩).globalSt
        ⟨true, true, 1⟩).conn
        = (wsStep (fun _ => Except.ok ([] : List Detection)) ⟨1000, 5⟩
            initConnState ⟨none⟩ ⟨true, true, 0⟩).conn :=
  c1_inference_gate_skips (fun _ => Except.ok []) ⟨1000, 5⟩ ⟨5002/5, 6⟩
    initConnState ⟨none⟩ ⟨true, true, 0⟩ ⟨true, true, 1⟩ [] rfl rfl
    (by norm_num [readTime, initConnState, MIN_INTERVAL, TARGET_FPS]) rfl
    rfl rfl (by norm_num [readTime, MIN_INTERVAL, TARGET_FPS])

/-- C4 counterexample: an inbound message whose base64 decoding raises
(`b64ok = false`) makes the handler break out of its loop — it does not
continue to serve subsequent messages, contrary to the claim that the
handler never terminates on malformed input.  No error acknowledgment is
sent either. -/
theorem c4_undecodable_terminates_cex :
    (wsStep (fun _ => Except.ok []) ⟨1000, 0⟩ initConnState ⟨none⟩
        ⟨false, false, 0⟩).continues = false
    ∧ (wsStep (fun _ => Except.ok []) ⟨1000, 0⟩ initConnState ⟨none⟩
        ⟨false, false, 0⟩).sent = none := by
  exact ⟨rfl, rfl⟩

/-- C4 (amended): a message that base64-decodes but is not a decodable
image (`cv2.imdecode` yields `None`) gets the explicit error
acknowledgment `{"error": "invalid_image"}`, that cycle's processing is
skipped (the model is not invoked and no state changes) and the handler
continues; a message whose base64 decoding raises is caught by the
handler's outer `except`, which logs and terminates the loop without
re-raising — the handler does not crash, but it does not continue
either. -/
theorem c4_malformed_input (oracle : Frame → Except Unit (List Detection))
    (c : Clock) (s : ConnState) (g : GlobalState) (m m' : InMsg)
    (h1 : m.b64ok = true) (h2 : m.imgok = false)
    (h3 : m'.b64ok = false) :
    wsStep oracle c s g m
      = { sent := some .errorInvalidImage, modelInvoked := false,
          continues := true, conn := s, globalSt := g }
    ∧ wsStep oracle c s g m'
      = { sent := none, modelInvoked := false, continues := false,
          conn := s, globalSt := g } := by
  constructor
  · simp [wsStep, h1, h2]
  · simp [wsStep, h3]

/-- C4 witness: concrete undecodable-image and undecodable-base64
messages. -/
theorem c4_malformed_input_witness :
    wsStep (fun _ => Except.ok []) ⟨1000, 0⟩ initConnState ⟨none⟩
        ⟨true, false, 0⟩
      = { sent := some .errorInvalidImage, modelInvoked := false,
          continues := true, conn := initConnState, globalSt := ⟨none⟩ }
    ∧ wsStep (fun _ => Except.ok []) ⟨1000, 0⟩ initConnState ⟨none⟩
        ⟨false, false, 0⟩
      = { sent := none, modelInvoked := false, continues := false,
          conn := initConnState, globalSt := ⟨none⟩ } :=
  c4_malformed_input (fun _ => Except.ok []) ⟨1000, 0⟩ initConnState ⟨none⟩
    ⟨true, false, 0⟩ ⟨false, false, 0⟩ rfl rfl rfl

/-- C5 counterexample: a cycle whose model invocation fails does NOT
leave the inference-gate timer as it was.  Starting from a fresh
connection (`last_time = 0`), a decodable frame at wall time 1000 whose
model call raises leaves `last_time = 1000 ≠ 0`: line 226 sets the timer
before line 233 invokes the model, and the failure path never restores
it (it breaks the loop). -/
theorem c5_timer_changed_on_failure_cex :
    (wsStep (fun _ => Except.error ()) ⟨1000, 0⟩ initConnState ⟨none⟩
        ⟨true, true, 0⟩).modelInvoked = true
    ∧ (wsStep (fun _ => Except.error ()) ⟨1000, 0⟩ initConnState ⟨none⟩
        ⟨true, true, 0⟩).conn.lastTime = 1000
    ∧ initConnState.lastTime = 0
    ∧ (1000 : ℚ) ≠ 0 := by
  refine ⟨?_, ?_, rfl, by norm_num⟩ <;>
    norm_num [wsStep, readTime, initConnState, MIN_INTERVAL, TARGET_FPS]

/-- C5 (amended): when the external model invocation fails on a cycle
that passed the inference gate, the gate timer has already been advanced
to that cycle's wall-clock reading before the call (so it does not keep
its pre-cycle value whenever the reading differs from it), nothing is
sent, and the handler terminates rather than proceeding to a next
cycle. -/
theorem c5_timer_on_model_failure
    (oracle : Frame → Except Unit (List Detection)) (c : Clock)
    (s : ConnState) (g : GlobalState) (m : InMsg)
    (h1 : m.b64ok = true) (h2 : m.imgok = true)
    (hgate : ¬ readTime c - s.lastTime < MIN_INTERVAL)
    (hfail : oracle m.frame = .error ()) :
    (wsStep oracle c s g m).conn.lastTime = readTime c
    ∧ (wsStep oracle c s g m).sent = none
    ∧ (wsStep oracle c s g m).continues = false
    ∧ (wsStep oracle c s g m).modelInvoked = true := by
  refine ⟨?_, ?_, ?_, ?_⟩ <;> simp [wsStep, h1, h2, hgate, hfail]

/-- C5 witness: the failing cycle at wall time 1000 from a fresh
connection. -/
theorem c5_timer_on_model_failure_witness :
    (wsStep (fun _ => Except.error ()) ⟨1000, 0⟩ initConnState ⟨none⟩
        ⟨true, true, 0⟩).conn.lastTime = readTime ⟨1000, 0⟩
    ∧ (wsStep (fun _ => Except.error ()) ⟨1000, 0⟩ initConnState ⟨none⟩
        ⟨true, true, 0⟩).sent = none
    ∧ (wsStep (fun _ => Except.error ()) ⟨1000, 0⟩ initConnState ⟨none⟩
        ⟨true, true, 0⟩).continues = false
    ∧ (wsStep (fun _ => Except.error ()) ⟨1000, 0⟩ initConnState ⟨none⟩
        ⟨true, true, 0⟩).modelInvoked = true :=
  c5_timer_on_model_failure (fun _ => Except.error ()) ⟨1000, 0⟩
    initConnState ⟨none⟩ ⟨true, true, 0⟩ rfl rfl
    (by norm_num [readTime, initConnState, MIN_INTERVAL, TARGET_FPS]) rfl

/-- C6 counterexample: the gate decision is NOT a function of monotonic
elapsed time.  Two cycles from the same state `last_time = 1000`, at the
same monotonic instant (`mono = 5` in both), but with the wall clock set
to 1000.2 in one run and 1001 in the other (a wall-clock adjustment in
between), give different gate decisions: skipped in the first, processed
in the second.  The gates measure time with `time.time()` (wall clock),
so a system clock adjustment changes the skip/process outcome. -/
theorem c6_wall_clock_cex :
    (Clock.mk (5001/5) 5).mono = (Clock.mk 1001 5).mono
    ∧ (wsStep (fun _ => Except.ok []) ⟨5001/5, 5⟩ ⟨1000⟩ ⟨none⟩
        ⟨true, true, 0⟩).sent = some (Response.ack [] true)
    ∧ (wsStep (fun _ => Except.ok []) ⟨1001, 5⟩ ⟨1000⟩ ⟨none⟩
        ⟨true, true, 0⟩).sent = some (Response.ack [] false)
    ∧ some (Response.ack [] true) ≠ some (Response.ack [] false) := by
  refine ⟨rfl, ?_, ?_, by simp⟩ <;>
    norm_num [wsStep, readTime, MIN_INTERVAL, TARGET_FPS]

/-- C6 (amended): the inference gate (the only gate the handler has)
measures elapsed time with the wall clock — `time.time()` at line 220 —
and its decision is exactly determined by the wall-clock reading: for a
decodable frame, the skipped acknowledgment is sent if and only if the
wall reading minus `last_time` is below `MIN_INTERVAL`.  Gate decisions
therefore depend on wall-clock adjustments, not on monotonic elapsed
time. -/
theorem c6_gate_wall_clock (oracle : Frame → Except Unit (List Detection))
    (c : Clock) (s : ConnState) (g : GlobalState) (m : InMsg)
    (h1 : m.b64ok = true) (h2 : m.imgok = true) :
    (wsStep oracle c s g m).sent = some (Response.ack [] true)
      ↔ c.wall - s.lastTime < MIN_INTERVAL := by
  constructor
  · intro hs
    by_contra hgate
    rw [show c.wall = readTime c from rfl] at hgate
    rcases hok : oracle m.frame with e | dets
    · have := hs
      simp [wsStep, h1, h2, hgate, hok] at this
    · have := hs
      simp [wsStep, h1, h2, hgate, hok] at this
  · intro hgate
    simp [wsStep, h1, h2, readTime, hgate]

/-- C6 witness: at wall reading 1000.2 with `last_time = 1000`, the delta
0.2 is below 0.5 and the skip acknowledgment is sent. -/
theorem c6_gate_wall_clock_witness :
    (wsStep (fun _ => Except.ok []) ⟨5001/5, 5⟩ ⟨1000⟩ ⟨none⟩
        ⟨true, true, 0⟩).sent = some (Response.ack [] true)
    ∧ (5001/5 : ℚ) - 1000 < MIN_INTERVAL :=
  have h : (5001/5 : ℚ) - 1000 < MIN_INTERVAL := by
    norm_num [MIN_INTERVAL, TARGET_FPS]
  ⟨(c6_gate_wall_clock (fun _ => Except.ok []) ⟨5001/5, 5⟩ ⟨1000⟩ ⟨none⟩
      ⟨true, true, 0⟩ rfl rfl).mpr h, h⟩

/-- C9 counterexample: an outbound message sent by the handler — the skip
acknowledgment `{"detections": [], "skipped": true}` produced by a
gate-suppressed cycle — has field set `["detections", "skipped"]` only:
it contains neither `command` nor `zone_counts`, so not every outbound
message carries all four claimed fields. -/
theorem c9_outbound_shape_cex :
    (wsStep (fun _ => Except.ok []) ⟨5001/5, 0⟩ ⟨1000⟩ ⟨none⟩
        ⟨true, true, 0⟩).sent = some (Response.ack [] true)
    ∧ respFields (Response.ack [] true) = ["detections", "skipped"]
    ∧ (respFields (Response.ack [] true)).contains "command" = false
    ∧ (respFields (Response.ack [] true)).contains "zone_counts" = false := by
  refine ⟨?_, rfl, by decide, by decide⟩
  norm_num [wsStep, readTime, MIN_INTERVAL, TARGET_FPS]

/-- C9 (amended): every outbound streaming message the handler sends is
either the error acknowledgment, whose only field is `error`, or an
object whose fields are exactly `detections` and `skipped` — no outbound
message carries a `zone_counts` or `command` field; and for a decodable
frame, the message equals the skip acknowledgment
`{"detections": [], "skipped": true}` exactly when the inference gate
suppressed processing. -/
theorem c9_outbound_shape (oracle : Frame → Except Unit (List Detection))
    (c : Clock) (s : ConnState) (g : GlobalState) (m : InMsg) :
    (∀ r, (wsStep oracle c s g m).sent = some r →
      (respFields r = ["error"]
          ∨ respFields r = ["detections", "skipped"])
      ∧ (respFields r).contains "command" = false
      ∧ (respFields r).contains "zone_counts" = false)
    ∧ (m.b64ok = true → m.imgok = true →
      ((wsStep oracle c s g m).sent = some (Response.ack [] true)
        ↔ readTime c - s.lastTime < MIN_INTERVAL)) := by
  constructor
  · intro r hr
    have hfields : respFields r = ["error"]
        ∨ respFields r = ["detections", "skipped"] := by
      cases r with
      | errorInvalidImage => exact Or.inl rfl
      | ack dets sk => exact Or.inr rfl
    refine ⟨hfields, ?_, ?_⟩ <;> rcases hfields with h | h <;>
      rw [h] <;> decide
  · intro h1 h2
    constructor
    · intro hs
      by_contra hgate
      rcases hok : oracle m.frame with e | dets
      · have hk := hs
        simp [wsStep, h1, h2, hgate, hok] at hk
      · have hk := hs
        simp [wsStep, h1, h2, hgate, hok] at hk
    · intro hgate
      simp [wsStep, h1, h2, hgate]

/-- C9 witness: the gate-suppressed cycle at wall delta 0.2 sends the
two-field skip acknowledgment with no command or zone_counts field. -/
theorem c9_outbound_shape_witness :
    ((respFields (Response.ack [] true) = ["error"]
        ∨ respFields (Response.ack [] true) = ["detections", "skipped"])
      ∧ (respFields (Response.ack [] true)).contains "command" = false
      ∧ (respFields (Response.ack [] true)).contains "zone_counts" = false)
    ∧ ((wsStep (fun _ => Except.ok []) ⟨5001/5, 0⟩ ⟨1000⟩ ⟨none⟩
        ⟨true, true, 0⟩).sent = some (Response.ack [] true)) := by
  have hgate : readTime ⟨5001/5, 0⟩ - (ConnState.mk 1000).lastTime
      < MIN_INTERVAL := by
    norm_num [readTime, MIN_INTERVAL, TARGET_FPS]
  have hsent := ((c9_outbound_shape (fun _ => Except.ok []) ⟨5001/5, 0⟩
    ⟨1000⟩ ⟨none⟩ ⟨true, true, 0⟩).2 rfl rfl).mpr hgate
  exact ⟨(c9_outbound_shape (fun _ => Except.ok []) ⟨5001/5, 0⟩ ⟨1000⟩
    ⟨none⟩ ⟨true, true, 0⟩).1 (Response.ack [] true) hsent, hsent⟩

/-- C10: per-connection gate initialization — `last_time` is a local
variable of `inference_socket`, set to `0.0` when the connection is
accepted, so on any fresh connection the first successfully decoded
frame (at any wall time at least `MIN_INTERVAL`, which every real
`time.time()` reading is) is fully processed: the model is invoked and
the response carries `skipped = false`, whatever the shared global state
left behind by activity on other connections. -/
theorem c10_fresh_connection_first_frame
    (oracle : Frame → Except Unit (List Detection)) (c : Clock)
    (g : GlobalState) (m : InMsg) (dets : List Detection)
    (h1 : m.b64ok = true) (h2 : m.imgok = true)
    (hnow : MIN_INTERVAL ≤ readTime c)
    (hok : oracle m.frame = .ok dets) :
    initConnState.lastTime = 0
    ∧ (wsStep oracle c initConnState g m).sent
        = some (Response.ack dets false)
    ∧ (wsStep oracle c initConnState g m).modelInvoked = true := by
  have hgate : ¬ readTime c - initConnState.lastTime < MIN_INTERVAL := by
    simp only [initConnState]
    intro hlt
    rw [sub_zero] at hlt
    exact absurd hnow (not_le.mpr hlt)
  rw [wsStep_processed oracle c initConnState g m dets h1 h2 hgate hok]
  exact ⟨rfl, rfl, rfl⟩

/-- C10 witness: a fresh connection's first frame at wall time 1000 is
processed (`skipped = false`), independent of the shared frame cache
holding another connection's frame. -/
theorem c10_fresh_connection_first_frame_witness :
    initConnState.lastTime = 0
    ∧ (wsStep (fun _ => Except.ok []) ⟨1000, 7⟩ initConnState ⟨some 42⟩
        ⟨true, true, 0⟩).sent = some (Response.ack [] false)
    ∧ (wsStep (fun _ => Except.ok []) ⟨1000, 7⟩ initConnState ⟨some 42⟩
        ⟨true, true, 0⟩).modelInvoked = true :=
  c10_fresh_connection_first_frame (fun _ => Except.ok []) ⟨1000, 7⟩
    ⟨some 42⟩ ⟨true, true, 0⟩ [] rfl rfl
    (by norm_num [readTime, MIN_INTERVAL, TARGET_FPS]) rfl

/-- C2: Publish gate — if a decision cycle at time `t1` emitted a command
and a second cycle runs at `t2` with `t2 - t1 < minPublishDelay`, the
second cycle emits no command (`none`), still reports its own latest zone
counts, and leaves the publish timer untouched; and in general a command
is only ever emitted when at least `minPublishDelay` has elapsed since
the previously emitted command (`lastPublish`), stamped with its emission
time. -/
theorem c2_publish_gate (minPublishDelay t1 t2 : ℚ)
    (counts1 counts2 : List Nat) (s : SchedState) (c1 : Command)
    (h1 : (publishGate minPublishDelay t1 counts1 s).cmd = some c1)
    (hsep : t2 - t1 < minPublishDelay) :
    ((publishGate minPublishDelay t2 counts2
        (publishGate minPublishDelay t1 counts1 s).state).cmd = none
      ∧ (publishGate minPublishDelay t2 counts2
          (publishGate minPublishDelay t1 counts1 s).state).counts
          = counts2
      ∧ (publishGate minPublishDelay t2 counts2
          (publishGate minPublishDelay t1 counts1 s).state).state
          = (publishGate minPublishDelay t1 counts1 s).state)
    ∧ (∀ (now : ℚ) (cs : List Nat) (s' : SchedState) (cmd : Command),
        (publishGate minPublishDelay now cs s').cmd = some cmd →
        minPublishDelay ≤ now - s'.lastPublish ∧ cmd.issuedAt = now) := by
  have hopen : ¬ t1 - s.lastPublish < minPublishDelay := by
    intro hlt
    rw [publishGate, if_pos hlt] at h1
    simp at h1
  have hstate : (publishGate minPublishDelay t1 counts1 s).state
      = { lastPublish := t1 } := by
    rw [publishGate, if_neg hopen]
  constructor
  · rw [hstate]
    refine ⟨?_, ?_, ?_⟩ <;> simp [publishGate, hsep]
  · intro now cs s' cmd hcmd
    by_cases hg : now - s'.lastPublish < minPublishDelay
    · rw [publishGate, if_pos hg] at hcmd
      simp at hcmd
    · rw [publishGate, if_neg hg] at hcmd
      simp only [Option.some.injEq] at hcmd
      subst hcmd
      exact ⟨not_lt.mp hg, rfl⟩

/-- C2 witness: with a 5-second publish delay, a command published at
time 10 (from `lastPublish = 0`) holds the cycle at time 12: no command,
counts `[2, 2]` still reported, timer untouched. -/
theorem c2_publish_gate_witness :
    ((publishGate 5 12 [2, 2] (publishGate 5 10 [1] ⟨0⟩).state).cmd = none
      ∧ (publishGate 5 12 [2, 2]
          (publishGate 5 10 [1] ⟨0⟩).state).counts = [2, 2]
      ∧ (publishGate 5 12 [2, 2] (publishGate 5 10 [1] ⟨0⟩).state).state
          = (publishGate 5 10 [1] ⟨0⟩).state)
    ∧ (∀ (now : ℚ) (cs : List Nat) (s' : SchedState) (cmd : Command),
        (publishGate 5 now cs s').cmd = some cmd →
        5 ≤ now - s'.lastPublish ∧ cmd.issuedAt = now) :=
  c2_publish_gate 5 10 12 [1] [2, 2] ⟨0⟩ ⟨busiestZone [1], 10⟩
    (by rw [publishGate, if_neg (by norm_num)]) (by norm_num)

/-- C3: Zone aggregation — for every vehicle label set, frame width `W`,
height and zone count `N ≥ 1`, the per-zone counts sum to exactly the
number of detections whose label is in the vehicle set and whose
horizontal midpoint `(x1 + x2) / 2` lies below `W`; and on the worked
example (width 900, 3 zones, midpoints 50 car / 620 bus / 640 car /
10 person) the counts are `{1: 1, 2: 0, 3: 2}` with busiest zone 3. -/
theorem c3_zone_aggregation (veh : List String) (W H N : Nat)
    (hN : 1 ≤ N) (dets : List SpecDetection) :
    (aggregate veh W H dets N).sum
      = dets.countP (fun d => isVehicle veh d && decide (midpt d < W))
    ∧ aggregate ["car", "bus"] 900 600 exampleDets 3 = [1, 0, 2]
    ∧ busiestZone (aggregate ["car", "bus"] 900 600 exampleDets 3) = 3 :=
  ⟨aggregate_sum_eq veh W H N hN dets, by decide, by decide⟩

/-- C3 witness: the sum identity evaluated on the worked example itself
(3 vehicle detections inside the 900-pixel frame). -/
theorem c3_zone_aggregation_witness :
    (aggregate ["car", "bus"] 900 600 exampleDets 3).sum
      = exampleDets.countP (fun d =>
          isVehicle ["car", "bus"] d && decide (midpt d < 900))
    ∧ aggregate ["car", "bus"] 900 600 exampleDets 3 = [1, 0, 2]
    ∧ busiestZone (aggregate ["car", "bus"] 900 600 exampleDets 3) = 3 :=
  c3_zone_aggregation ["car", "bus"] 900 600 3 (by decide) exampleDets

/-- C7: Manual override contract — `POST /traffic/{cmd}` yields the
400-class client error exactly on the branch where `cmd` is outside
`{"1", "2", "3"}`, with no publish and no telemetry write; with a valid
`cmd` and the broker not connected it yields the 503 error, again with no
effects; with a valid `cmd` and the broker connected it publishes the
command once on `iot/backend/traffic` and records exactly one telemetry
entry, unconditionally — `publish_traffic` reads no gate timer (the
handler's `last_time` is local to each WebSocket connection and no global
timer exists), so the outcome is the same whatever the scheduler
state. -/
theorem c7_publish_traffic_contract (cmd : String) (mqttConnected : Bool) :
    (validCmds.contains cmd = false →
      publish_traffic cmd mqttConnected
        = (.httpError 400 "cmd must be 1, 2, or 3", ⟨[], []⟩))
    ∧ (validCmds.contains cmd = true → mqttConnected = false →
      publish_traffic cmd mqttConnected
        = (.httpError 503 "MQTT not connected yet", ⟨[], []⟩))
    ∧ (validCmds.contains cmd = true → mqttConnected = true →
      publish_traffic cmd mqttConnected
        = (.okPayload "published" TOPIC_TRAFFIC_OUT cmd,
            ⟨[(TOPIC_TRAFFIC_OUT, cmd)], [(TOPIC_TRAFFIC_OUT, cmd)]⟩)) := by
  refine ⟨?_, ?_, ?_⟩
  · intro hv
    rw [publish_traffic, if_pos hv]
  · intro hv hc
    rw [publish_traffic, if_neg (by rw [hv]; simp), if_pos hc]
  · intro hv hc
    rw [publish_traffic, if_neg (by rw [hv]; simp), if_neg (by simp [hc])]

/-- C7 witness: `cmd = "2"` with the broker connected publishes once and
records one telemetry entry; `cmd = "4"` is the 400 error with no
effects; `cmd = "2"` with the broker down is the 503 error with no
effects. -/
theorem c7_publish_traffic_contract_witness :
    publish_traffic "2" true
      = (.okPayload "published" TOPIC_TRAFFIC_OUT "2",
          ⟨[(TOPIC_TRAFFIC_OUT, "2")], [(TOPIC_TRAFFIC_OUT, "2")]⟩)
    ∧ publish_traffic "4" true
      = (.httpError 400 "cmd must be 1, 2, or 3", ⟨[], []⟩)
    ∧ publish_traffic "2" false
      = (.httpError 503 "MQTT not connected yet", ⟨[], []⟩) :=
  ⟨(c7_publish_traffic_contract "2" true).2.2 (by decide) rfl,
    (c7_publish_traffic_contract "4" true).1 (by decide),
    (c7_publish_traffic_contract "2" false).2.1 (by decide) rfl⟩

/-- C8: Telemetry sink isolation — the two-sink `record` guards each
store with the same total catch the source's single-sink
`store_message_to_firestore` uses, so a failure of the document store
leaves the time-series store's trace exactly what it would have been, and
symmetrically; each failure is converted into a log line (`wrote = false`
and the message logged) rather than an exception — `record` is a total
function into traces, so nothing propagates to the caller. -/
theorem c8_telemetry_sink_isolation (a b : SinkOutcome) (msg : String) :
    (record (.err msg) b).tsStore = (record .ok b).tsStore
    ∧ (record a (.err msg)).docStore = (record a .ok).docStore
    ∧ (record (.err msg) b).docStore = { wrote := false, logged := [msg] }
    ∧ (record a (.err msg)).tsStore = { wrote := false, logged := [msg] } :=
  ⟨rfl, rfl, rfl, rfl⟩

end IotServer
